import Mathlib

/-!
Verification of the coderev-platform job pipeline and analyzer.

Shallow embedding of:
* `backend/src/services/analyzer.js` (report assembly, category routing,
  quality score, AI gating),
* `backend/src/services/aiReviewer.js` (API-key validation, response
  validation, graceful AI failure),
* `backend/src/controllers/reviewController.js` (submission service),
* the worker process (`processJob` / `startWorker`),
* `backend/src/services/dlq.js` (DLQ log / retry job updates),
* `backend/src/services/cache.js` (content-hash result cache).

External I/O (Postgres, Redis, SQS, HTTPS) is modelled by explicit state
passing: database updates become a list of effects folded over a store,
queue messages are explicit records, and the outcome of each remote call
is an explicit parameter.  JavaScript numbers that only ever hold small
integers are modelled by `Nat`; the quality score, which mixes integers
with the literal 0.5, is modelled by `Rat` (exact for these values).
-/

namespace CodeRev

/-- Issue severity set used by every detector
(`analyzer.js`, severities are the strings critical/high/medium/low). -/
inductive Severity
  | critical
  | high
  | medium
  | low
  deriving DecidableEq, Repr

/-- An issue as pushed by the detectors in `analyzer.js` (line, optional
column, message, severity, rule id, suggestion, optional category string,
optional file name). -/
structure Issue where
  line : Nat
  column : Option Nat := none
  message : String
  severity : Severity
  rule : String
  suggestion : String
  category : Option String := none
  file : Option String := none
  deriving DecidableEq, Repr

/-- A raw AI suggestion as decoded from the provider JSON
(`aiReviewer.js`).  Fields are optional because the payload is untyped:
`none` models a missing field (or a field of the wrong JSON type). -/
structure RawSuggestion where
  line : Option Int := none
  severity : Option String := none
  category : Option String := none
  issue : Option String := none
  explanation : Option String := none
  suggestion : Option String := none
  deriving DecidableEq, Repr

/-- The three report buckets built by `analyzeCode`
(`analyzer.js:1583-1587`). -/
structure Buckets where
  security : List Issue := []
  performance : List Issue := []
  style : List Issue := []
  deriving DecidableEq, Repr

/-- Report metrics (`analyzer.js:1732-1741`). -/
structure Metrics where
  reviewTime : String
  linesAnalyzed : Nat
  issuesFound : Nat
  processingTimeMs : Nat
  deriving DecidableEq, Repr

/-- The report returned by `analyzeCode` (`analyzer.js:1725-1742`). -/
structure Report where
  fileName : String
  security : List Issue
  performance : List Issue
  style : List Issue
  aiSuggestions : List RawSuggestion
  qualityScore : String
  metrics : Metrics
  deriving DecidableEq, Repr

/-- JavaScript `content.split('\n')` on the character list of the
content: splits at every newline, keeping empty segments, and yields one
more segment than there are newline characters. -/
def consHead (c : Char) : List (List Char) → List (List Char)
  | [] => [[c]]
  | seg :: segs => (c :: seg) :: segs

def splitNl : List Char → List (List Char)
  | [] => [[]]
  | c :: rest =>
    if c = '\n' then [] :: splitNl rest else consHead c (splitNl rest)

theorem consHead_length (c : Char) (l : List (List Char)) (h : l ≠ []) :
    (consHead c l).length = l.length := by
  cases l with
  | nil => exact absurd rfl h
  | cons seg segs => simp [consHead]

theorem splitNl_ne_nil (l : List Char) : splitNl l ≠ [] := by
  cases l with
  | nil => simp [splitNl]
  | cons c rest =>
    by_cases hc : c = '\n'
    · simp [splitNl, hc]
    · simp only [splitNl, if_neg hc]
      cases h : splitNl rest <;> simp [consHead]

/-- `split('\n').length` equals the newline count plus one. -/
theorem splitNl_length (l : List Char) :
    (splitNl l).length = l.count '\n' + 1 := by
  induction l with
  | nil => simp [splitNl]
  | cons c rest ih =>
    by_cases hc : c = '\n'
    · subst hc
      simp [splitNl, ih, List.count_cons]
    · simp only [splitNl, if_neg hc]
      rw [consHead_length c _ (splitNl_ne_nil rest), ih,
        List.count_cons_of_ne (Ne.symm hc)]

/-- `(processingTime / 1000).toFixed(1) + "s"` (`analyzer.js:1733`),
on the exact rational value of the duration in milliseconds. -/
def reviewTimeText (ms : Nat) : String :=
  let tenths := (ms + 50) / 100
  toString (tenths / 10) ++ "." ++ toString (tenths % 10) ++ "s"

/-! ## AI reviewer (`backend/src/services/aiReviewer.js`) -/

/-- `validateApiKey` (`aiReviewer.js:38-51`): the key must be present,
non-empty (JavaScript falsiness of the empty string) and at least 20
characters long, otherwise AI reviews are disabled. -/
def validateApiKey (key : Option String) : Bool :=
  match key with
  | none => false
  | some k =>
    if k = "" then false
    else if k.length < 20 then false
    else true

/-- `SUGGESTION_SCHEMA.validSeverities` (`aiReviewer.js:60`). -/
def validSeverities : List String := ["critical", "high", "medium", "low"]

/-- `SUGGESTION_SCHEMA.validCategories` (`aiReviewer.js:61`). -/
def validCategories : List String :=
  ["security", "performance", "logic", "style", "reliability"]

/-- `validateSuggestion` (`aiReviewer.js:64-85`): all six required fields
present, line a number at least 1, severity and category from the
enumerated sets, issue a non-empty string. -/
def validateSuggestion (s : RawSuggestion) : Bool :=
  match s.line, s.severity, s.category, s.issue, s.explanation, s.suggestion with
  | some ln, some sev, some cat, some iss, some _, some _ =>
    decide (1 ≤ ln) && validSeverities.contains sev &&
      validCategories.contains cat && !(iss = "")
  | _, _, _, _, _, _ => false

/-- Shape of the JSON payload decoded from the AI response body
(`validateAIResponse`, `aiReviewer.js:87-112`). -/
inductive AIPayload
  | notObject
  | noArray
  | withSuggestions (l : List RawSuggestion)
  deriving DecidableEq

/-- `validateAIResponse` (`aiReviewer.js:87-112`): returns the list of
schema-valid suggestions together with the overall validity flag. -/
def validateAIResponse : AIPayload → List RawSuggestion × Bool
  | .notObject => ([], false)
  | .noArray => ([], false)
  | .withSuggestions l => (l.filter validateSuggestion, l.all validateSuggestion)

/-- Outcome of parsing the `aiContent` string extracted from the provider
response (`aiReviewer.js:409-428`). -/
inductive ContentOutcome
  | unparseable
  | parsed (p : AIPayload)
  deriving DecidableEq

/-- Observable fate of the single remote AI call made by
`reviewCodeWithAI`: the rejection cases of `makeAIRequest`
(`aiReviewer.js:266-318`: timeout, network error, HTTP 429, other non-200
status, 200 with an unparseable body), a resolved response from which no
`aiContent` could be extracted (`aiReviewer.js:391-407,438-441`), or an
extracted content string with its parse outcome. -/
inductive AIAttempt
  | timeout
  | netError (message : String)
  | rateLimited
  | apiError (status : Nat)
  | bodyUnparseable
  | noContent
  | content (c : ContentOutcome)
  deriving DecidableEq

/-- `reviewCodeWithAI` (`aiReviewer.js:321-453`).  Returns the suggestion
list together with a flag recording whether a remote request was made.
The function catches every rejection of `makeAIRequest` and returns `[]`
(`aiReviewer.js:442-452`); parse failures of the content return `[]`
(`aiReviewer.js:425-428`); a missing `aiContent` returns `[]`
(`aiReviewer.js:438-441`); otherwise the schema-valid suggestions are
returned (`aiReviewer.js:430-437`). -/
def reviewCodeWithAI (keyValid : Bool) (attempt : AIAttempt) :
    List RawSuggestion × Bool :=
  if !keyValid then ([], false)
  else
    match attempt with
    | .timeout => ([], true)
    | .netError _ => ([], true)
    | .rateLimited => ([], true)
    | .apiError _ => ([], true)
    | .bodyUnparseable => ([], true)
    | .noContent => ([], true)
    | .content .unparseable => ([], true)
    | .content (.parsed p) => ((validateAIResponse p).1, true)

/-- An AI attempt that is a failure in the sense of invariant I4:
timeout, transport error, non-200 response, unparseable body or content,
unexpected response shape, or a schema-invalid payload. -/
def aiFailed : AIAttempt → Bool
  | .timeout => true
  | .netError _ => true
  | .rateLimited => true
  | .apiError _ => true
  | .bodyUnparseable => true
  | .noContent => true
  | .content .unparseable => true
  | .content (.parsed .notObject) => true
  | .content (.parsed .noArray) => true
  | .content (.parsed (.withSuggestions _)) => false

/-! ## Analyzer (`backend/src/services/analyzer.js`) -/

/-- `ERROR_CODES` (`analyzer.js:1778-1784`). -/
inductive ErrCode
  | eslintFailed
  | patternDetectionFailed
  | aiReviewFailed
  | fileTooLarge
  | forcedFailure
  deriving DecidableEq, Repr

/-- `AnalysisError` (`analyzer.js:1786-1794`): structured error with a
code and a message. -/
structure AnalysisError where
  code : ErrCode
  message : String
  deriving DecidableEq, Repr

/-- Environment configuration read by `analyzeCode`
(`ALLOW_FORCE_FAIL`, `ENABLE_AI`, `CONFIG.MIN/MAX_FILE_LINES_FOR_AI`,
and the module-level `IS_AI_KEY_VALID` of the AI reviewer). -/
structure AnalyzerEnv where
  allowForceFail : Bool := false
  enableAI : Bool := false
  minLinesForAI : Nat := 5
  maxLinesForAI : Nat := 1000
  aiKeyValid : Bool := false
  deriving DecidableEq, Repr

/-- The numeric part of `calculateQualityScore` (`analyzer.js:1682-1709`):
start at 100, deduct per-issue weights by bucket and severity, then clamp
to `[0, 100]`.  Computed over `Rat` (all values involved are exact in
JavaScript doubles as well). -/
def calcScoreValue (issues : Buckets) (ai : List RawSuggestion) : ℚ :=
  let score : ℚ := 100
  let score := score - ((issues.security.filter (fun i => i.severity == .critical)).length : ℚ) * 15
  let score := score - ((issues.security.filter (fun i => i.severity == .high)).length : ℚ) * 10
  let score := score - ((issues.security.filter (fun i => i.severity == .medium)).length : ℚ) * 5
  let score := score - ((issues.security.filter (fun i => i.severity == .low)).length : ℚ) * 2
  let score := score - ((issues.performance.filter (fun i => i.severity == .critical)).length : ℚ) * 10
  let score := score - ((issues.performance.filter (fun i => i.severity == .high)).length : ℚ) * 7
  let score := score - ((issues.performance.filter (fun i => i.severity == .medium)).length : ℚ) * 4
  let score := score - ((issues.performance.filter (fun i => i.severity == .low)).length : ℚ) * 1
  let score := score - (issues.style.length : ℚ) * (1 / 2)
  let score := score - ((ai.filter (fun s => s.severity == some "critical")).length : ℚ) * 8
  let score := score - ((ai.filter (fun s => s.severity == some "high")).length : ℚ) * 5
  let score := score - ((ai.filter (fun s => s.severity == some "medium")).length : ℚ) * 3
  let score := score - ((ai.filter (fun s => s.severity == some "low")).length : ℚ) * 1
  max 0 (min 100 score)

/-- The letter-grade part of `calculateQualityScore`
(`analyzer.js:1712-1716`). -/
def calculateQualityScore (issues : Buckets) (ai : List RawSuggestion) : String :=
  let score := calcScoreValue issues ai
  if 90 ≤ score then "A"
  else if 80 ≤ score then "B"
  else if 70 ≤ score then "C"
  else if 60 ≤ score then "D"
  else "F"

/-- Report buckets, named. -/
inductive BucketName
  | security
  | performance
  | style
  deriving DecidableEq, Repr

/-- Destination bucket of an issue produced by the async/concurrency
detector stage (`analyzeCode`, `analyzer.js:1544-1550`): `memory-leak`
and `concurrency` are pushed onto `performance`, everything else onto
`security`. -/
def asyncIssueBucket (i : Issue) : BucketName :=
  if i.category = some "memory-leak" ∨ i.category = some "concurrency" then
    .performance
  else
    .security

/-- Destination bucket of an issue produced by the semantic detector
stage (`analyzeCode`, `analyzer.js:1558-1566`). -/
def semanticIssueBucket (i : Issue) : BucketName :=
  if i.category = some "reliability" ∨ i.category = some "concurrency" then
    .security
  else if i.category = some "memory-leak" ∨ i.category = some "observability" ∨
      i.category = some "testability" then
    .performance
  else
    .style

/-- Destination bucket of an issue produced by the auth detector stage
(`analyzeCode`, `analyzer.js:1575-1577`): every auth issue is pushed onto
`security`. -/
def authIssueBucket (_ : Issue) : BucketName :=
  .security

/-- Modelled from the spec: the category-to-bucket routing of §4.5.4,
which the spec prescribes for every async/semantic/auth detector output:
`concurrency | reliability → security`;
`memory-leak | observability | testability → performance`;
`design → style`; `security → security`; `performance → performance`;
anything else → `style`. -/
def specCategoryBucket (cat : Option String) : BucketName :=
  if cat = some "concurrency" ∨ cat = some "reliability" then .security
  else if cat = some "memory-leak" ∨ cat = some "observability" ∨
      cat = some "testability" then .performance
  else if cat = some "design" then .style
  else if cat = some "security" then .security
  else if cat = some "performance" then .performance
  else .style

/-- The categories the semantic detector stage can attach to an issue
(`detectSemanticIssues`, `analyzer.js:568-950`: `reliability`,
`memory-leak`, `concurrency`, `observability`, `maintainability`,
`testability`, `design`). -/
def semanticCategories : List String :=
  ["reliability", "memory-leak", "concurrency", "observability",
   "maintainability", "testability", "design"]

/-- The report built by the success path of `analyzeCode`
(`analyzer.js:1499-1742`) once the detector stages and the ESLint adapter
have produced the three buckets.  `stage1` stands for the merged output
of stages 1a-1f; the AI stage and the metrics are computed here exactly
as in the source. -/
def buildReport (env : AnalyzerEnv) (stage1 : Buckets) (attempt : AIAttempt)
    (processingTime : Nat) (fileContent fileName : String) : Report :=
  let lines := (splitNl fileContent.data).length
  let useAI := env.enableAI
  let aiSuggestions :=
    if useAI && decide (env.minLinesForAI ≤ lines) && decide (lines ≤ env.maxLinesForAI) then
      (reviewCodeWithAI env.aiKeyValid attempt).1
    else
      []
  { fileName := fileName
    security := stage1.security
    performance := stage1.performance
    style := stage1.style
    aiSuggestions := aiSuggestions
    qualityScore := calculateQualityScore stage1 aiSuggestions
    metrics :=
      { reviewTime := reviewTimeText processingTime
        linesAnalyzed := lines
        issuesFound := stage1.security.length + stage1.performance.length +
          stage1.style.length + aiSuggestions.length
        processingTimeMs := processingTime } }

/-- `analyzeCode` (`analyzer.js:1493-1760`): the forced-failure escape
hatch fires only when `ALLOW_FORCE_FAIL` is `"true"` and the file name is
`force_fail.js` (`analyzer.js:1495-1497`); otherwise the report is
assembled from the detector buckets, the AI stage and the metrics. -/
def analyzeCode (env : AnalyzerEnv) (stage1 : Buckets) (attempt : AIAttempt)
    (processingTime : Nat) (fileContent fileName : String) :
    Except AnalysisError Report :=
  if env.allowForceFail && fileName = "force_fail.js" then
    .error ⟨.forcedFailure, "Forced failure for DLQ testing"⟩
  else
    .ok (buildReport env stage1 attempt processingTime fileContent fileName)

/-! ## Job store, queue messages, worker (`worker.js`, `dlq.js`,
`reviewController.js`) -/

/-- Job status values (`schema.sql` / §3: `queued`, `processing`,
`retrying`, `complete`, `dlq`). -/
inductive JobStatus
  | queued
  | processing
  | retrying
  | complete
  | dlq
  deriving DecidableEq, Repr

/-- A row of `review_jobs` (`schema.sql:12-27`), restricted to the fields
the covered code reads or writes.  Timestamps are modelled by presence
flags. -/
structure Job where
  userId : Nat := 1
  codeHash : String
  fileName : String
  fileContent : String
  status : JobStatus
  result : Option Report := none
  cacheHit : Bool := false
  attempts : Nat := 0
  lastError : Option String := none
  dlqMessageId : Option String := none
  dlqMovedAt : Bool := false
  completedAt : Bool := false
  processingTimeMs : Option Nat := none
  deriving DecidableEq, Repr

/-- The parsed body of a queue message
(`sendToQueue` call in `reviewController.js:49`). -/
structure JobMsg where
  jobId : String
  codeHash : String
  fileName : String
  fileContent : String
  deriving DecidableEq, Repr

/-- A received SQS message as seen by the worker.  `body = none` models a
body on which `JSON.parse` throws (`worker.js:18`); `receiveCount` is the
`ApproximateReceiveCount` attribute (`worker.js:20`). -/
structure QueueMsg where
  messageId : String
  receiptHandle : String
  body : Option JobMsg
  receiveCount : Nat
  deriving DecidableEq, Repr

/-- The `UPDATE review_jobs` statements issued by the worker and the DLQ
service, as row-granular operations. -/
inductive DbOp
  /-- `worker.js:36-39`: `SET status='processing', attempts=$rc`. -/
  | markProcessing (attempts : Nat)
  /-- `worker.js:45-50`: `SET status='complete', result, completed_at=NOW(),
  processing_time_ms, attempts, last_error=NULL, dlq_message_id=NULL`. -/
  | markComplete (r : Report) (ptimeMs : Nat) (attempts : Nat)
  /-- `worker.js:69-72`: `SET status='retrying', attempts, last_error`. -/
  | markRetrying (attempts : Nat) (err : String)
  /-- `dlq.js:69-74` (`logDLQMessage`): `SET status='dlq',
  dlq_message_id=$mid, dlq_moved_at=NOW(), last_error=$err`. -/
  | markDlq (msgId : String) (err : String)
  /-- `dlq.js:157-162` (`retryDLQMessage`): `SET status='retrying',
  attempts=0, last_error=NULL`. -/
  | retryReset
  deriving DecidableEq, Repr

/-- Effect of one `DbOp` on a job row. -/
def applyDbOp (j : Job) : DbOp → Job
  | .markProcessing a =>
    { j with status := .processing, attempts := a }
  | .markComplete r t a =>
    { j with
      status := .complete
      result := some r
      completedAt := true
      processingTimeMs := some t
      attempts := a
      lastError := none
      dlqMessageId := none }
  | .markRetrying a e =>
    { j with status := .retrying, attempts := a, lastError := some e }
  | .markDlq m e =>
    { j with
      status := .dlq
      dlqMessageId := some m
      dlqMovedAt := true
      lastError := some e }
  | .retryReset =>
    { j with status := .retrying, attempts := 0, lastError := none }

/-- A row of `dlq_messages` (`schema.sql:30-43`), restricted to the
fields the covered code touches. -/
structure DlqRow where
  jobId : String
  receiveCount : Nat
  lastError : String
  retryCount : Nat := 0
  resolved : Bool := false
  deriving DecidableEq, Repr

/-- External side effects emitted by one `processJob` run, in program
order. -/
inductive Effect
  /-- A job-row update. -/
  | db (jobId : String) (op : DbOp)
  /-- `setCachedReview` (`cache.js:20-31`, called at `worker.js:43`). -/
  | cachePut (hash : String) (r : Report)
  /-- The `INSERT INTO dlq_messages` of `logDLQMessage` (`dlq.js:58-66`;
  applied only if no row with this `message_id` exists). -/
  | dlqInsert (messageId jobId : String) (receiveCount : Nat) (err : String)
  /-- `deleteFromQueue` (`worker.js:52`). -/
  | deleteMsg (receipt : String)
  deriving DecidableEq, Repr

/-- Worker configuration: `SQS_MAX_RECEIVE_COUNT` (`worker.js:10`,
default 3). -/
structure WorkerEnv where
  maxReceive : Nat := 3
  deriving DecidableEq, Repr

/-- The catch block of `processJob` (`worker.js:56-77`): at or above the
maximum receive count, log the message to the DLQ table and mark the job
`dlq` (`logDLQMessage`, `dlq.js:47-80`); below it, mark the job
`retrying`.  In neither case is the message deleted (`worker.js:75-76`). -/
def catchEffects (env : WorkerEnv) (msg : QueueMsg) (jobId : String)
    (rc : Nat) (err : String) : List Effect :=
  if env.maxReceive ≤ rc then
    [.dlqInsert msg.messageId jobId rc err,
     .db jobId (.markDlq msg.messageId err)]
  else
    [.db jobId (.markRetrying rc err)]

/-- `processJob` (`worker.js:12-78`), as the list of effects of one run.
`JSON.parse(message.Body)` sits outside the `try` block (`worker.js:18`),
so a malformed body makes the whole call throw without any effect
(`Except.error`).  Inside the `try`: the file name `force_fail.js` throws
unconditionally before any update (`worker.js:32-34`); otherwise the job
is marked `processing` (without any prior read of its status), the
analyzer runs, and on success the result is cached, the job completed and
the message deleted (`worker.js:36-52`). -/
def processJob (env : WorkerEnv) (msg : QueueMsg)
    (analyze : String → String → Except AnalysisError Report) :
    Except String (List Effect) :=
  match msg.body with
  | none => .error "SyntaxError: Unexpected token in JSON"
  | some job =>
    let rc := msg.receiveCount
    if job.fileName = "force_fail.js" then
      .ok (catchEffects env msg job.jobId rc "Forced failure for DLQ testing")
    else
      match analyze job.fileContent job.fileName with
      | .ok r =>
        .ok [.db job.jobId (.markProcessing rc),
             .cachePut job.codeHash r,
             .db job.jobId (.markComplete r r.metrics.processingTimeMs rc),
             .deleteMsg msg.receiptHandle]
      | .error e =>
        .ok (.db job.jobId (.markProcessing rc) ::
          catchEffects env msg job.jobId rc e.message)

/-- One iteration of the worker loop (`startWorker`, `worker.js:87-94`):
any error escaping `processJob` is caught, the loop sleeps and continues.
Returns the effects performed and whether the worker keeps running. -/
def workerStep (env : WorkerEnv) (msg : QueueMsg)
    (analyze : String → String → Except AnalysisError Report) :
    List Effect × Bool :=
  match processJob env msg analyze with
  | .ok effs => (effs, true)
  | .error _ => ([], true)

/-! ## Shared persistent state and the submission service -/

/-- The shared persistent state: the `review_jobs` table keyed by job id,
the Redis result cache keyed by content hash (`cache.js`, key prefix
elided), and the `dlq_messages` table keyed by message id. -/
structure Store where
  jobs : String → Option Job
  cache : String → Option Report
  dlqRows : String → Option DlqRow

/-- The empty state. -/
def Store.empty : Store :=
  { jobs := fun _ => none, cache := fun _ => none, dlqRows := fun _ => none }

/-- Insert or replace a job row. -/
def putJob (st : Store) (id : String) (j : Job) : Store :=
  { st with jobs := fun k => if k = id then some j else st.jobs k }

/-- Apply one worker effect to the shared state.  `deleteMsg` only
touches the queue, which is not part of `Store`; the `dlqInsert` is
guarded by the existence check of `logDLQMessage` (`dlq.js:53-58`). -/
def applyEffect (st : Store) : Effect → Store
  | .db id op =>
    { st with
      jobs := fun k =>
        if k = id then (st.jobs id).map (fun j => applyDbOp j op)
        else st.jobs k }
  | .cachePut h r =>
    { st with cache := fun k => if k = h then some r else st.cache k }
  | .dlqInsert m id rc err =>
    if (st.dlqRows m).isSome then st
    else
      { st with
        dlqRows := fun k =>
          if k = m then some ⟨id, rc, err, 0, false⟩ else st.dlqRows k }
  | .deleteMsg _ => st

/-- Fold a run's effects over the shared state. -/
def applyEffects (st : Store) (l : List Effect) : Store :=
  l.foldl applyEffect st

/-- The JSON body of a successful `POST /reviews/submit` response
(`reviewController.js:32-37,51-55`). -/
structure SubmitResp where
  jobId : String
  status : JobStatus
  cacheHit : Bool
  result : Option Report
  deriving DecidableEq, Repr

/-- Outcome of `submitReview`: HTTP 400 on missing content, or the JSON
response together with the updated state and the enqueued message body
(if any). -/
inductive SubmitOutcome
  | badRequest
  | ok (resp : SubmitResp) (st : Store) (enqueued : Option JobMsg)

/-- `submitReview` (`reviewController.js:10-60`).  `hash` abstracts the
hex-encoded SHA-256 digest (`crypto.createHash('sha256')`,
`reviewController.js:18`); it is a function of the content, hence
deterministic.  On a cache hit a completed job row is written and the
cached report returned synchronously; on a miss a queued job row is
written and a message `{jobId, codeHash, fileName, fileContent}`
enqueued. -/
def submitReview (hash : String → String) (st : Store) (newJobId : String)
    (fileName fileContent : String) (userId : Nat) : SubmitOutcome :=
  if fileContent = "" then .badRequest
  else
    let codeHash := hash fileContent
    match st.cache codeHash with
    | some cached =>
      let j : Job :=
        { userId := userId
          codeHash := codeHash
          fileName := fileName
          fileContent := fileContent
          status := .complete
          result := some cached
          cacheHit := true
          completedAt := true
          processingTimeMs := some 0 }
      .ok ⟨newJobId, .complete, true, some cached⟩ (putJob st newJobId j) none
    | none =>
      let j : Job :=
        { userId := userId
          codeHash := codeHash
          fileName := fileName
          fileContent := fileContent
          status := .queued }
      .ok ⟨newJobId, .queued, false, none⟩ (putJob st newJobId j)
        (some ⟨newJobId, codeHash, fileName, fileContent⟩)

/-- The invariant of §3 relating `status=dlq` to `dlq_message_id`. -/
def dlqInv (j : Job) : Prop :=
  j.status = .dlq ↔ j.dlqMessageId ≠ none

instance (j : Job) : Decidable (dlqInv j) := by
  unfold dlqInv
  infer_instance

/-! ## Spec-side quality score (§4.5.5) -/

/-- Modelled from the spec: the per-bucket severity deduction of §4.5.5,
weights `wC/wH/wM/wL` per critical/high/medium/low issue. -/
def specBucketDeduction (wC wH wM wL : ℚ) (l : List Issue) : ℚ :=
  wC * l.countP (fun i => i.severity == .critical) +
    wH * l.countP (fun i => i.severity == .high) +
    wM * l.countP (fun i => i.severity == .medium) +
    wL * l.countP (fun i => i.severity == .low)

/-- Modelled from the spec: the AI-suggestion deduction of §4.5.5
(8/5/3/1 per critical/high/medium/low suggestion). -/
def specAIDeduction (ai : List RawSuggestion) : ℚ :=
  8 * ai.countP (fun s => s.severity == some "critical") +
    5 * ai.countP (fun s => s.severity == some "high") +
    3 * ai.countP (fun s => s.severity == some "medium") +
    1 * ai.countP (fun s => s.severity == some "low")

/-- Modelled from the spec: start at 100, deduct security 15/10/5/2,
performance 10/7/4/1, a flat 0.5 per style issue and AI 8/5/3/1, then
clamp to `[0, 100]` (§4.5.5). -/
def specScoreValue (issues : Buckets) (ai : List RawSuggestion) : ℚ :=
  max 0 (min 100
    (100 - specBucketDeduction 15 10 5 2 issues.security -
      specBucketDeduction 10 7 4 1 issues.performance -
      (1 / 2) * issues.style.length - specAIDeduction ai))

/-- Modelled from the spec: the grade mapping `A ≥ 90, B ≥ 80, C ≥ 70,
D ≥ 60, else F` (§4.5.5). -/
def specGradeLetter (score : ℚ) : String :=
  if 90 ≤ score then "A"
  else if 80 ≤ score then "B"
  else if 70 ≤ score then "C"
  else if 60 ≤ score then "D"
  else "F"

/-- Modelled from the spec: the whole quality-grade computation of
§4.5.5. -/
def specQualityGrade (issues : Buckets) (ai : List RawSuggestion) : String :=
  specGradeLetter (specScoreValue issues ai)

theorem calcScoreValue_eq_spec (issues : Buckets) (ai : List RawSuggestion) :
    calcScoreValue issues ai = specScoreValue issues ai := by
  unfold calcScoreValue specScoreValue specBucketDeduction specAIDeduction
  simp only [List.countP_eq_length_filter]
  ring_nf

/-- C8: the quality grade of a report starts at 100, deducts 15/10/5/2
per critical/high/medium/low security issue, 10/7/4/1 per performance
issue, a flat 0.5 per style issue, 8/5/3/1 per AI suggestion, clamps the
score to `[0, 100]` and maps it to A/B/C/D/F at the thresholds
90/80/70/60. -/
theorem C8_quality_score (issues : Buckets) (ai : List RawSuggestion) :
    calculateQualityScore issues ai = specQualityGrade issues ai := by
  unfold calculateQualityScore specQualityGrade specGradeLetter
  rw [calcScoreValue_eq_spec]

/-! ## Category routing (C2) -/

/-- The issue pushed by the forEach-with-async-callback rule of the async
detector stage (`detectAsyncIssues`, `analyzer.js:435-444`), for a match
on line 1. -/
def foreachAsyncIssue : Issue :=
  { line := 1
    column := some 1
    message := "forEach with async callback does not await - use for...of or Promise.all(map())"
    severity := .high
    rule := "async/foreach-async"
    suggestion := "Use for...of loop with await, or Promise.all(items.map(async item => ...))."
    category := some "concurrency"
    file := some "a.js" }

/-- C2, counterexample: the claim routes async-stage `concurrency` issues
to the security bucket, but `analyzeCode` (`analyzer.js:1544-1550`)
pushes them onto the performance bucket.  The witness issue is exactly
the one the forEach-async rule produces (`analyzer.js:435-444`, category
`concurrency` at line 443). -/
theorem C2_counterexample :
    asyncIssueBucket foreachAsyncIssue = .performance ∧
    specCategoryBucket foreachAsyncIssue.category = .security ∧
    asyncIssueBucket foreachAsyncIssue ≠
      specCategoryBucket foreachAsyncIssue.category := by
  refine ⟨by decide, by decide, by decide⟩

/-- C2, amended: semantic-stage issues are routed exactly per the spec
mapping for every category the semantic detectors produce, and auth-stage
issues (categories `concurrency` and `reliability`) all land in security,
agreeing with the spec; but async-stage issues (categories `concurrency`
and `memory-leak`, `analyzer.js:417-563`) are both routed to the
performance bucket, so async `concurrency` issues land in `performance`
instead of the `security` bucket the spec prescribes. -/
theorem C2_amended_routing (i : Issue) :
    ((i.category = some "concurrency" ∨ i.category = some "memory-leak") →
      asyncIssueBucket i = .performance) ∧
    ((∃ c ∈ semanticCategories, i.category = some c) →
      semanticIssueBucket i = specCategoryBucket i.category) ∧
    ((i.category = some "concurrency" ∨ i.category = some "reliability") →
      authIssueBucket i = specCategoryBucket i.category) := by
  refine ⟨?_, ?_, ?_⟩
  · rintro (h | h) <;> simp [asyncIssueBucket, h]
  · rintro ⟨c, hc, h⟩
    simp only [semanticCategories, List.mem_cons, List.not_mem_nil, or_false] at hc
    rcases hc with rfl | rfl | rfl | rfl | rfl | rfl | rfl <;>
      simp [semanticIssueBucket, specCategoryBucket, h]
  · rintro (h | h) <;> simp [authIssueBucket, specCategoryBucket, h]

/-- A semantic-stage issue with category `design` (the class-based
inheritance rule, `analyzer.js:806-814`). -/
def designSemanticIssue : Issue :=
  { line := 3
    message := "Class-based inheritance detected - consider composition over inheritance"
    severity := .low
    rule := "semantic/prefer-composition"
    suggestion := "Use composition or mixins instead of deep inheritance chains."
    category := some "design" }

/-- An auth-stage issue with category `reliability` (the
lost-requests-on-error rule, `analyzer.js:1087-1096`). -/
def authReliabilityIssue : Issue :=
  { line := 5
    message := "Queued requests are not drained on error paths"
    severity := .high
    rule := "auth/lost-requests-on-error"
    suggestion := "Drain the waiter queue in both success and error paths."
    category := some "reliability" }

theorem C2_amended_witness :
    asyncIssueBucket foreachAsyncIssue = .performance ∧
    semanticIssueBucket designSemanticIssue =
      specCategoryBucket designSemanticIssue.category ∧
    authIssueBucket authReliabilityIssue =
      specCategoryBucket authReliabilityIssue.category :=
  ⟨(C2_amended_routing foreachAsyncIssue).1 (Or.inl rfl),
   (C2_amended_routing designSemanticIssue).2.1 ⟨"design", by decide, rfl⟩,
   (C2_amended_routing authReliabilityIssue).2.2 (Or.inr rfl)⟩

/-! ## AI failure is non-fatal (C4) and key gating (C10) -/

theorem reviewCodeWithAI_failed (kv : Bool) (a : AIAttempt)
    (h : aiFailed a = true) : (reviewCodeWithAI kv a).1 = [] := by
  cases kv with
  | false => rfl
  | true =>
    rcases a with _ | m | _ | s | _ | _ | c
    case content =>
      rcases c with _ | p
      · rfl
      · rcases p with _ | _ | l
        · rfl
        · rfl
        · exact absurd h (by simp [aiFailed])
    all_goals rfl

/-- C4: whenever the AI detector fails (timeout, transport error, non-200
status, unparseable body or content, unexpected shape, schema-invalid
payload), `reviewCodeWithAI` swallows the failure and returns `[]`, and
`analyzeCode` still returns a report whose AI suggestion list is empty;
the AI detector never makes `analyzeCode` fail. -/
theorem C4_ai_nonfatal (env : AnalyzerEnv) (stage1 : Buckets)
    (attempt : AIAttempt) (t : Nat) (content fileName : String)
    (hF : aiFailed attempt = true)
    (hG : env.allowForceFail = false ∨ fileName ≠ "force_fail.js") :
    (reviewCodeWithAI env.aiKeyValid attempt).1 = [] ∧
    ∃ rep, analyzeCode env stage1 attempt t content fileName = .ok rep ∧
      rep.aiSuggestions = [] := by
  have hempty : ∀ kv, (reviewCodeWithAI kv attempt).1 = [] := fun kv =>
    reviewCodeWithAI_failed kv attempt hF
  refine ⟨hempty _,
    buildReport env stage1 attempt t content fileName, ?_, ?_⟩
  · unfold analyzeCode
    rcases hG with h | h
    · simp [h]
    · simp [h]
  · show (buildReport env stage1 attempt t content fileName).aiSuggestions = []
    unfold buildReport
    simp only
    split
    · exact hempty _
    · rfl

theorem C4_witness :
    aiFailed .timeout = true ∧
    (({} : AnalyzerEnv).allowForceFail = false ∨ "a.js" ≠ "force_fail.js") ∧
    ((reviewCodeWithAI ({} : AnalyzerEnv).aiKeyValid .timeout).1 = [] ∧
      ∃ rep, analyzeCode {} {} .timeout 7 "let x = 1" "a.js" = .ok rep ∧
        rep.aiSuggestions = []) :=
  ⟨rfl, Or.inl rfl,
   C4_ai_nonfatal {} {} .timeout 7 "let x = 1" "a.js" rfl (Or.inl rfl)⟩

/-- C10: when the AI API key is absent or shorter than 20 characters,
`validateApiKey` reports it invalid, `reviewCodeWithAI` returns an empty
suggestion list without making any remote request (flag `false`), and
`analyzeCode` still returns a report — even with `enable_ai` set and the
line count within the AI bounds. -/
theorem C10_ai_key_skip (key : Option String) (env : AnalyzerEnv)
    (stage1 : Buckets) (attempt : AIAttempt) (t : Nat)
    (content fileName : String)
    (hkey : key = none ∨ ∃ k, key = some k ∧ k.length < 20)
    (henv : env.aiKeyValid = validateApiKey key)
    (hG : env.allowForceFail = false ∨ fileName ≠ "force_fail.js") :
    validateApiKey key = false ∧
    reviewCodeWithAI env.aiKeyValid attempt = ([], false) ∧
    ∃ rep, analyzeCode env stage1 attempt t content fileName = .ok rep ∧
      rep.aiSuggestions = [] := by
  have hkv : validateApiKey key = false := by
    rcases hkey with rfl | ⟨k, rfl, hk⟩
    · rfl
    · unfold validateApiKey
      by_cases hke : k = ""
      · simp [hke]
      · simp [hke, hk]
  have hrv : reviewCodeWithAI env.aiKeyValid attempt = ([], false) := by
    rw [henv, hkv]
    rfl
  refine ⟨hkv, hrv,
    buildReport env stage1 attempt t content fileName, ?_, ?_⟩
  · unfold analyzeCode
    rcases hG with h | h <;> simp [h]
  · show (buildReport env stage1 attempt t content fileName).aiSuggestions = []
    unfold buildReport
    simp only
    split
    · rw [hrv]
    · rfl

theorem C10_witness :
    validateApiKey (some "short-key") = false ∧
    reviewCodeWithAI
      ({ enableAI := true, aiKeyValid := validateApiKey (some "short-key") } :
        AnalyzerEnv).aiKeyValid .timeout = ([], false) ∧
    ∃ rep,
      analyzeCode
        { enableAI := true, aiKeyValid := validateApiKey (some "short-key") }
        {} .timeout 3 "a\nb\nc\nd\ne\nf" "a.js" = .ok rep ∧
      rep.aiSuggestions = [] :=
  C10_ai_key_skip (some "short-key")
    { enableAI := true, aiKeyValid := validateApiKey (some "short-key") }
    {} .timeout 3 "a\nb\nc\nd\ne\nf" "a.js"
    (Or.inr ⟨"short-key", rfl, by decide⟩) rfl (Or.inl rfl)

/-! ## Report metrics (C9) -/

/-- C9: for every input content, the report's `linesAnalyzed` metric
equals the number of newline characters in the content plus one (the
value of `content.split('\n').length`, reading the claim's
"newline-delimited segments" as the segments terminated by a newline),
and `issuesFound` equals the total size of the three buckets plus the
number of AI suggestions. -/
theorem C9_metrics (env : AnalyzerEnv) (stage1 : Buckets)
    (attempt : AIAttempt) (t : Nat) (content fileName : String)
    (rep : Report)
    (h : analyzeCode env stage1 attempt t content fileName = .ok rep) :
    rep.metrics.linesAnalyzed = content.data.count '\n' + 1 ∧
    rep.metrics.issuesFound =
      rep.security.length + rep.performance.length + rep.style.length +
        rep.aiSuggestions.length := by
  unfold analyzeCode at h
  split at h
  · exact absurd h (by simp)
  · injection h with h
    subst h
    unfold buildReport
    refine ⟨?_, rfl⟩
    simpa using splitNl_length content.data

theorem C9_metrics_witness :
    (buildReport {} {} .timeout 0 "a\nb" "a.js").metrics.linesAnalyzed =
      "a\nb".data.count '\n' + 1 ∧
    (buildReport {} {} .timeout 0 "a\nb" "a.js").metrics.issuesFound =
      (buildReport {} {} .timeout 0 "a\nb" "a.js").security.length +
        (buildReport {} {} .timeout 0 "a\nb" "a.js").performance.length +
        (buildReport {} {} .timeout 0 "a\nb" "a.js").style.length +
        (buildReport {} {} .timeout 0 "a\nb" "a.js").aiSuggestions.length :=
  C9_metrics {} {} .timeout 0 "a\nb" "a.js"
    (buildReport {} {} .timeout 0 "a\nb" "a.js") rfl

/-! ## Concrete fixtures shared by the lifecycle theorems -/

/-- A minimal report, as the analyzer could produce for a one-line clean
file. -/
def r0 : Report :=
  { fileName := "a.js"
    security := []
    performance := []
    style := []
    aiSuggestions := []
    qualityScore := "A"
    metrics :=
      { reviewTime := "0.0s"
        linesAnalyzed := 1
        issuesFound := 0
        processingTimeMs := 0 } }

/-- An analyzer that succeeds with `r0` on every input. -/
def analyze0 : String → String → Except AnalysisError Report :=
  fun _ _ => .ok r0

/-- A first-delivery queue message for job `j1`. -/
def msg0 : QueueMsg :=
  { messageId := "m1", receiptHandle := "rcpt1",
    body := some ⟨"j1", "h1", "a.js", "x"⟩, receiveCount := 1 }

/-- The job row of `j1` after a completed first run. -/
def completedJob : Job :=
  { codeHash := "h1"
    fileName := "a.js"
    fileContent := "x"
    status := .complete
    result := some r0
    attempts := 1
    completedAt := true
    processingTimeMs := some 0 }

/-- A job row sitting in the DLQ, satisfying the §3 invariant. -/
def dlqJob : Job :=
  { codeHash := "h4"
    fileName := "b.js"
    fileContent := "y"
    status := .dlq
    attempts := 3
    lastError := some "boom"
    dlqMessageId := some "m4"
    dlqMovedAt := true }

/-- A freshly created queued job row. -/
def queuedJob : Job :=
  { codeHash := "h5"
    fileName := "c.js"
    fileContent := "z"
    status := .queued }

/-! ## C1: redelivery after completion -/

/-- C1, counterexample: `processJob` (`worker.js:12-78`) performs no read
of the job's status.  For a redelivered message whose job is already
`complete`, it emits an unconditional `markProcessing` update — taking
the completed job back to `processing` — then re-completes it and only
then deletes the message; it does not just delete the message and stop.
This refutes "a transition from complete back to processing never
happens". -/
theorem C1_counterexample :
    completedJob.status = .complete ∧
    processJob {} msg0 analyze0 =
      .ok [.db "j1" (.markProcessing 1), .cachePut "h1" r0,
           .db "j1" (.markComplete r0 0 1), .deleteMsg "rcpt1"] ∧
    (applyDbOp completedJob (.markProcessing 1)).status = .processing ∧
    processJob {} msg0 analyze0 ≠ .ok [.deleteMsg "rcpt1"] := by
  refine ⟨rfl, rfl, rfl, ?_⟩
  intro h
  injection h with h
  exact absurd h (by decide)

/-- C1, amended: the worker never inspects the stored job before marking
it `processing`; on redelivery of a message whose job is already
`complete` (and whose analysis succeeds again), it re-marks the job
`processing`, re-runs the analysis, overwrites the result and deletes the
message at the end.  The `complete → processing` transition therefore
does occur; completion is idempotent in value only when the analyzer is
deterministic, not at-most-once. -/
theorem C1_amended_redelivery (env : WorkerEnv) (msg : QueueMsg)
    (job : JobMsg)
    (analyze : String → String → Except AnalysisError Report)
    (r : Report) (j : Job)
    (hb : msg.body = some job) (hff : job.fileName ≠ "force_fail.js")
    (hA : analyze job.fileContent job.fileName = .ok r)
    (_hj : j.status = .complete) :
    processJob env msg analyze =
      .ok [.db job.jobId (.markProcessing msg.receiveCount),
           .cachePut job.codeHash r,
           .db job.jobId
             (.markComplete r r.metrics.processingTimeMs msg.receiveCount),
           .deleteMsg msg.receiptHandle] ∧
    (applyDbOp j (.markProcessing msg.receiveCount)).status = .processing ∧
    (applyDbOp (applyDbOp j (.markProcessing msg.receiveCount))
        (.markComplete r r.metrics.processingTimeMs msg.receiveCount)).status
      = .complete ∧
    (applyDbOp (applyDbOp j (.markProcessing msg.receiveCount))
        (.markComplete r r.metrics.processingTimeMs msg.receiveCount)).result
      = some r := by
  refine ⟨?_, rfl, rfl, rfl⟩
  unfold processJob
  rw [hb]
  simp [hff, hA]

theorem C1_amended_witness :
    processJob {} msg0 analyze0 =
      .ok [.db "j1" (.markProcessing 1), .cachePut "h1" r0,
           .db "j1" (.markComplete r0 r0.metrics.processingTimeMs 1),
           .deleteMsg "rcpt1"] ∧
    (applyDbOp completedJob (.markProcessing 1)).status = .processing ∧
    (applyDbOp (applyDbOp completedJob (.markProcessing 1))
        (.markComplete r0 r0.metrics.processingTimeMs 1)).status = .complete ∧
    (applyDbOp (applyDbOp completedJob (.markProcessing 1))
        (.markComplete r0 r0.metrics.processingTimeMs 1)).result = some r0 :=
  C1_amended_redelivery {} msg0 ⟨"j1", "h1", "a.js", "x"⟩ analyze0 r0
    completedJob rfl (by decide) rfl rfl

/-! ## C6: malformed message body -/

/-- A message whose body `JSON.parse` rejects. -/
def badMsg : QueueMsg :=
  { messageId := "m2", receiptHandle := "rcpt2", body := none,
    receiveCount := 1 }

/-- C6, counterexample: `JSON.parse(message.Body)` sits outside the `try`
block (`worker.js:18`), so a malformed body throws out of `processJob`
before any effect; the message is NOT deleted (the effect list of the
caught run is empty).  This refutes "it deletes that message from the
queue"; only the second half of the claim (the worker loop survives)
holds. -/
theorem C6_counterexample :
    processJob {} badMsg analyze0 =
      .error "SyntaxError: Unexpected token in JSON" ∧
    workerStep {} badMsg analyze0 = ([], true) :=
  ⟨rfl, rfl⟩

/-- C6, amended: a queue message whose body fails to parse makes
`processJob` throw before performing any effect; the message is not
deleted (it is left for redelivery and eventual transport-level DLQ
routing), and the worker loop catches the error and continues. -/
theorem C6_amended_parse_failure (env : WorkerEnv) (msg : QueueMsg)
    (analyze : String → String → Except AnalysisError Report)
    (hb : msg.body = none) :
    processJob env msg analyze =
      .error "SyntaxError: Unexpected token in JSON" ∧
    workerStep env msg analyze = ([], true) := by
  constructor
  · unfold processJob
    rw [hb]
  · unfold workerStep processJob
    rw [hb]

theorem C6_amended_witness :
    processJob {} badMsg analyze0 =
      .error "SyntaxError: Unexpected token in JSON" ∧
    workerStep {} badMsg analyze0 = ([], true) :=
  C6_amended_parse_failure {} badMsg analyze0 rfl

/-! ## C7: the force_fail.js escape hatch -/

/-- Analyzer environment with `ALLOW_FORCE_FAIL` unset. -/
def envOff : AnalyzerEnv := {}

/-- The analyzer as invoked by the worker, with the escape hatch off. -/
def analyzeOff : String → String → Except AnalysisError Report :=
  fun c f => analyzeCode envOff {} .timeout 0 c f

/-- A first-delivery queue message for a submission named
`force_fail.js`. -/
def msgFF : QueueMsg :=
  { messageId := "m3", receiptHandle := "rcpt3",
    body := some ⟨"j3", "h3", "force_fail.js", "x"⟩, receiveCount := 1 }

/-- C7, counterexample: with `ALLOW_FORCE_FAIL` unset, `analyzeCode`
itself would analyze `force_fail.js` normally (first conjunct), but the
worker contains its own unconditional check (`worker.js:32-34`) that
throws on the file name before any processing, so the job is marked
`retrying` and never analyzed or completed (second conjunct).  This
refutes "when the option is not set, a file named force_fail.js is
analyzed and completed like any other file". -/
theorem C7_counterexample :
    analyzeCode envOff {} .timeout 0 "x" "force_fail.js" =
      .ok (buildReport envOff {} .timeout 0 "x" "force_fail.js") ∧
    processJob {} msgFF analyzeOff =
      .ok [.db "j3" (.markRetrying 1 "Forced failure for DLQ testing")] :=
  ⟨rfl, rfl⟩

/-- C7, amended: the Analyzer's escape hatch is gated as claimed —
`analyzeCode` raises `ForcedFailure` on `force_fail.js` exactly when
`allow_force_fail` is set — but the worker additionally short-circuits on
the file name `force_fail.js` unconditionally (`worker.js:32-34`), so a
queue message for such a file always takes the failure path (retry or
DLQ) and never completes, whether or not the option is set. -/
theorem C7_amended_force_fail :
    (∀ (env : AnalyzerEnv) (stage1 : Buckets) (att : AIAttempt) (t : Nat)
        (c : String), env.allowForceFail = true →
      analyzeCode env stage1 att t c "force_fail.js" =
        .error ⟨.forcedFailure, "Forced failure for DLQ testing"⟩) ∧
    (∀ (env : AnalyzerEnv) (stage1 : Buckets) (att : AIAttempt) (t : Nat)
        (c : String), env.allowForceFail = false →
      analyzeCode env stage1 att t c "force_fail.js" =
        .ok (buildReport env stage1 att t c "force_fail.js")) ∧
    (∀ (envW : WorkerEnv) (msg : QueueMsg) (job : JobMsg)
        (analyze : String → String → Except AnalysisError Report),
      msg.body = some job → job.fileName = "force_fail.js" →
      processJob envW msg analyze =
        .ok (catchEffects envW msg job.jobId msg.receiveCount
          "Forced failure for DLQ testing")) := by
  refine ⟨?_, ?_, ?_⟩
  · intro env stage1 att t c h
    unfold analyzeCode
    simp [h]
  · intro env stage1 att t c h
    unfold analyzeCode
    simp [h]
  · intro envW msg job analyze hb hf
    unfold processJob
    rw [hb]
    simp [hf]

theorem C7_amended_witness :
    analyzeCode { allowForceFail := true } {} .timeout 0 "x" "force_fail.js" =
      .error ⟨.forcedFailure, "Forced failure for DLQ testing"⟩ ∧
    analyzeCode envOff {} .timeout 0 "x" "force_fail.js" =
      .ok (buildReport envOff {} .timeout 0 "x" "force_fail.js") ∧
    processJob {} msgFF analyzeOff =
      .ok (catchEffects {} msgFF "j3" 1 "Forced failure for DLQ testing") :=
  ⟨C7_amended_force_fail.1 { allowForceFail := true } {} .timeout 0 "x" rfl,
   C7_amended_force_fail.2.1 envOff {} .timeout 0 "x" rfl,
   C7_amended_force_fail.2.2 {} msgFF ⟨"j3", "h3", "force_fail.js", "x"⟩
     analyzeOff rfl rfl⟩

/-! ## C5: the dlq-status / dlq_message_id invariant -/

/-- C5, counterexample: `retryDLQMessage` (`dlq.js:148-162`) resets the
job to `retrying` with `attempts=0, last_error=NULL` but does not clear
`dlq_message_id`, so retrying a job that satisfies the invariant
`status=dlq ⇔ dlq_message_id≠∅` yields a `retrying` job that still
carries a `dlq_message_id`, violating the invariant. -/
theorem C5_counterexample :
    dlqInv dlqJob ∧
    ¬ dlqInv (applyDbOp dlqJob .retryReset) ∧
    (applyDbOp dlqJob .retryReset).status = .retrying ∧
    (applyDbOp dlqJob .retryReset).dlqMessageId = some "m4" := by
  refine ⟨by decide, by decide, rfl, rfl⟩

/-- C5, amended: completion (`worker.js:45-50`, which clears
`dlq_message_id`) and the DLQ handler update (`dlq.js:69-74`, which sets
`status='dlq'` and `dlq_message_id` together) establish the invariant
unconditionally, and `markProcessing` / `markRetrying` preserve it from
any non-dlq state; but the manual DLQ retry (`dlq.js:157-162`) does not
clear `dlq_message_id`, so it always breaks the invariant when applied to
a job in `dlq` — the stale `dlq_message_id` persists until the job next
completes. -/
theorem C5_amended_dlq_invariant :
    (∀ (j : Job) (r : Report) (t a : Nat),
      dlqInv (applyDbOp j (.markComplete r t a))) ∧
    (∀ (j : Job) (m e : String), dlqInv (applyDbOp j (.markDlq m e))) ∧
    (∀ (j : Job) (a : Nat), j.status ≠ .dlq → dlqInv j →
      dlqInv (applyDbOp j (.markProcessing a))) ∧
    (∀ (j : Job) (a : Nat) (e : String), j.status ≠ .dlq → dlqInv j →
      dlqInv (applyDbOp j (.markRetrying a e))) ∧
    (∀ j : Job, j.status = .dlq → dlqInv j →
      ¬ dlqInv (applyDbOp j .retryReset)) := by
  refine ⟨?_, ?_, ?_, ?_, ?_⟩
  · intro j r t a
    simp [dlqInv, applyDbOp]
  · intro j m e
    simp [dlqInv, applyDbOp]
  · intro j a hs hinv
    have hm : j.dlqMessageId = none := by
      by_contra hm
      exact hs (hinv.mpr hm)
    simp [dlqInv, applyDbOp, hm]
  · intro j a e hs hinv
    have hm : j.dlqMessageId = none := by
      by_contra hm
      exact hs (hinv.mpr hm)
    simp [dlqInv, applyDbOp, hm]
  · intro j hs hinv
    have hm : j.dlqMessageId ≠ none := hinv.mp hs
    simp [dlqInv, applyDbOp, hm]

theorem C5_witness :
    dlqInv (applyDbOp queuedJob (.markProcessing 2)) ∧
    dlqInv (applyDbOp dlqJob (.markComplete r0 9 3)) ∧
    ¬ dlqInv (applyDbOp dlqJob .retryReset) :=
  ⟨C5_amended_dlq_invariant.2.2.1 queuedJob 2 (by decide) (by decide),
   C5_amended_dlq_invariant.1 dlqJob r0 9 3,
   C5_amended_dlq_invariant.2.2.2.2 dlqJob rfl (by decide)⟩

/-! ## C3: cache determinism for identical content -/

/-- C3: submitting identical content twice — where the first submission
missed the cache, was enqueued, and its message was processed to
completion by the worker, with no eviction in between — makes the second
`submitReview` compute the same fingerprint (`hash` is a function of the
content), hit the cache, and return synchronously with
`status=complete`, `cache_hit=true` and exactly the report the worker
produced for the first submission. -/
theorem C3_cache_determinism (hash : String → String) (st : Store)
    (env : WorkerEnv)
    (analyze : String → String → Except AnalysisError Report)
    (id1 id2 mid rcpt : String) (u : Nat) (fileName content : String)
    (r : Report)
    (hne : content ≠ "") (hff : fileName ≠ "force_fail.js")
    (hmiss : st.cache (hash content) = none)
    (hA : analyze content fileName = .ok r) :
    ∃ st1 : Store,
      submitReview hash st id1 fileName content u =
        .ok ⟨id1, .queued, false, none⟩ st1
          (some ⟨id1, hash content, fileName, content⟩) ∧
      processJob env
          ⟨mid, rcpt, some ⟨id1, hash content, fileName, content⟩, 1⟩
          analyze =
        .ok [.db id1 (.markProcessing 1), .cachePut (hash content) r,
             .db id1 (.markComplete r r.metrics.processingTimeMs 1),
             .deleteMsg rcpt] ∧
      ∃ st2 : Store,
        submitReview hash
          (applyEffects st1
            [.db id1 (.markProcessing 1), .cachePut (hash content) r,
             .db id1 (.markComplete r r.metrics.processingTimeMs 1),
             .deleteMsg rcpt])
          id2 fileName content u =
          .ok ⟨id2, .complete, true, some r⟩ st2 none := by
  refine ⟨putJob st id1
    { userId := u, codeHash := hash content, fileName := fileName,
      fileContent := content, status := .queued }, ?_, ?_, ?_⟩
  · unfold submitReview
    rw [if_neg hne]
    simp only [hmiss]
  · unfold processJob
    simp [hff, hA]
  · have hc :
        (applyEffects
          (putJob st id1
            { userId := u, codeHash := hash content, fileName := fileName,
              fileContent := content, status := .queued })
          [.db id1 (.markProcessing 1), .cachePut (hash content) r,
           .db id1 (.markComplete r r.metrics.processingTimeMs 1),
           .deleteMsg rcpt]).cache (hash content) = some r := by
      simp [applyEffects, applyEffect]
    unfold submitReview
    rw [if_neg hne]
    simp only [hc]
    exact ⟨_, rfl⟩

theorem C3_witness :
    ∃ st1 : Store,
      submitReview (fun s => s) Store.empty "id1" "a.js" "x" 1 =
        .ok ⟨"id1", .queued, false, none⟩ st1
          (some ⟨"id1", "x", "a.js", "x"⟩) ∧
      processJob {} ⟨"m", "rcpt", some ⟨"id1", "x", "a.js", "x"⟩, 1⟩
          analyze0 =
        .ok [.db "id1" (.markProcessing 1), .cachePut "x" r0,
             .db "id1" (.markComplete r0 r0.metrics.processingTimeMs 1),
             .deleteMsg "rcpt"] ∧
      ∃ st2 : Store,
        submitReview (fun s => s)
          (applyEffects st1
            [.db "id1" (.markProcessing 1), .cachePut "x" r0,
             .db "id1" (.markComplete r0 r0.metrics.processingTimeMs 1),
             .deleteMsg "rcpt"])
          "id2" "a.js" "x" 1 =
          .ok ⟨"id2", .complete, true, some r0⟩ st2 none :=
  C3_cache_determinism (fun s => s) Store.empty {} analyze0 "id1" "id2" "m"
    "rcpt" 1 "a.js" "x" r0 (by decide) (by decide) rfl rfl

end CodeRev
